import Mathlib

/-!
Verification development for the RAG assistant repository
(document ingestion, chunking, retrieval, prompt construction,
chat-history persistence).

Shallow embedding conventions:
 - External capabilities (Docling text extraction, the SentenceSplitter,
   the embedding model, the vector store retriever, the LLM synthesizer,
   the JSON codec of the standard library) are modelled as function
   parameters or as abstract data carried by the state, exactly at the
   interface the source code uses.
 - Python floats that only enter order comparisons (file sizes in MB,
   similarity scores) are modelled as rationals.
 - Python strings are Lean strings; Python `len` and slicing operate on
   code points, modelled through `String.data` (`pyLen`, `pySlice`).
 - Fallible operations are modelled on their success path where the
   source swallows I/O exceptions, and with explicit `Option`/error
   alternatives where the source branches on failure.
-/

/-! ## config.py -/

/-- config.SUPPORTED_EXTENSIONS. -/
def SUPPORTED_EXTENSIONS : List String := [".pdf", ".docx", ".txt", ".md", ".csv", ".xlsx"]

/-- config.MAX_FILE_SIZE_MB. -/
def MAX_FILE_SIZE_MB : ℚ := 50

/-- config.LOGS_DIR. -/
def LOGS_DIR : String := "./logs"

/-- config.RAG_CONFIG similarity_top_k. -/
def similarity_top_k : Nat := 5

/-! ## document_processor.py -/

/-- A file on disk as seen by `DocumentProcessor.process_file`: its path
(`file_path`), `Path(file_path).name`, `Path(file_path).suffix`, its size
reported by `os.path.getsize`, and the text produced for it by
`process_with_docling` (the external extraction capability; `""` models
both empty extraction and the fallback empty result). -/
structure FileInfo where
  path : String
  name : String
  suffix : String
  sizeBytes : Nat
  extractedText : String
deriving DecidableEq

/-- Python str.lower over the code points of a string (`Char.toLower` is
the same ASCII case map Python applies on the ASCII extensions involved),
used for `Path(file_path).suffix.lower()`. -/
def pyLower (s : String) : String := String.mk (s.data.map Char.toLower)

/-- DocumentProcessor.is_supported_file: the lowercased suffix is a member
of config.SUPPORTED_EXTENSIONS. -/
def is_supported_file (f : FileInfo) : Bool :=
  SUPPORTED_EXTENSIONS.contains (pyLower f.suffix)

/-- DocumentProcessor.get_file_size_mb: os.path.getsize(file_path) / (1024*1024). -/
def get_file_size_mb (f : FileInfo) : ℚ :=
  (f.sizeBytes : ℚ) / (1024 * 1024)

/-- The metadata dictionary attached to each produced chunk in
`DocumentProcessor.process_file`: the parent document metadata
(file_path, file_name, file_type, file_size) plus chunk_id and
total_chunks. -/
structure ChunkMeta where
  file_path : String
  file_name : String
  file_type : String
  file_size : ℚ
  chunk_id : Nat
  total_chunks : Nat
deriving DecidableEq

/-- A LlamaIndex Document as rebuilt from each node in process_file. -/
structure Doc where
  text : String
  meta : ChunkMeta
deriving DecidableEq

/-- The early-return outcomes of `DocumentProcessor.process_file`,
mirroring its branches. -/
inductive ProcessOutcome where
  | unsupported
  | tooLarge
  | noContent
  | processed (n : Nat)
deriving DecidableEq

/-- Log severity. -/
inductive LogLevel where
  | info
  | warning
  | error
deriving DecidableEq

/-- The logger call made by `process_file` on each outcome:
`logger.warning` for unsupported type, oversized file, and empty
extracted content; `logger.info` for a successful run. -/
def outcomeLogLevel : ProcessOutcome → LogLevel
  | .unsupported => .warning
  | .tooLarge => .warning
  | .noContent => .warning
  | .processed _ => .info

/-- The loop body of `process_file`: rebuild the chunk at enumerate
position `p.1` with text `p.2` as a Document carrying the parent
metadata plus chunk_id and total_chunks. -/
def chunkDoc (f : FileInfo) (total : Nat) (p : Nat × String) : Doc :=
  { text := p.2,
    meta :=
      { file_path := f.path,
        file_name := f.name,
        file_type := pyLower f.suffix,
        file_size := get_file_size_mb f,
        chunk_id := p.1,
        total_chunks := total } }

/-- DocumentProcessor.process_file. `split` is the external
SentenceSplitter capability (`node_parser.get_nodes_from_documents`),
giving the ordered node texts of the document text. Returns the branch
taken together with the produced chunk documents. -/
def process_file (split : String → List String) (f : FileInfo) :
    ProcessOutcome × List Doc :=
  if !is_supported_file f then (.unsupported, [])
  else if get_file_size_mb f > MAX_FILE_SIZE_MB then (.tooLarge, [])
  else
    let text_content := f.extractedText
    if text_content = "" then (.noContent, [])
    else
      let nodes := split text_content
      let docs := nodes.enum.map (chunkDoc f nodes.length)
      (.processed docs.length, docs)

/-- DocumentProcessor.process_directory, over the list of supported files
found under the directory (directory traversal is an external
capability): each file is processed in order and its chunks are appended;
a per-file failure or rejection contributes nothing and the loop
continues. -/
def process_directory (split : String → List String) :
    List FileInfo → List Doc
  | [] => []
  | f :: rest => (process_file split f).2 ++ process_directory split rest

/-! ## utils.py: upload validation -/

/-- The error strings appended by `validate_file_upload`, as a typed
mirror. -/
inductive UploadError where
  | unsupportedType (ext : String)
  | fileTooLarge (sizeMB : ℚ)
deriving DecidableEq

/-- The warning strings appended by `validate_file_upload`. -/
inductive UploadWarning where
  | largeFile (sizeMB : ℚ)
deriving DecidableEq

/-- The validation payload built by `validate_file_upload` (the
human-readable `info` sub-dictionary is presentation only and omitted). -/
structure Validation where
  valid : Bool
  errors : List UploadError
  warnings : List UploadWarning
deriving DecidableEq

/-- utils.validate_file_upload on an existing file: unsupported extension
is an error; size strictly above the cap is an error; otherwise size
strictly above 80 percent of the cap is a warning; valid iff no errors. -/
def validate_file_upload (f : FileInfo) : Validation :=
  let file_ext := pyLower f.suffix
  let ext_errors : List UploadError :=
    if SUPPORTED_EXTENSIONS.contains file_ext then [] else [.unsupportedType file_ext]
  let file_size_mb : ℚ := (f.sizeBytes : ℚ) / (1024 * 1024)
  let size_errors : List UploadError :=
    if file_size_mb > MAX_FILE_SIZE_MB then [.fileTooLarge file_size_mb] else []
  let warnings : List UploadWarning :=
    if file_size_mb > MAX_FILE_SIZE_MB then []
    else if file_size_mb > MAX_FILE_SIZE_MB * (8 / 10) then [.largeFile file_size_mb]
    else []
  let errors := ext_errors ++ size_errors
  { valid := errors.isEmpty, errors := errors, warnings := warnings }

/-! ## rag_engine.py -/

/-- A retrieved node as produced by `VectorIndexRetriever.retrieve`:
text, an optional similarity score, and the chunk metadata stored at
ingestion. -/
structure NodeWithScore where
  text : String
  score : Option ℚ
  metadata : ChunkMeta
deriving DecidableEq

/-- The vector index, abstracted at the interface the engine uses: given
a question and a similarity_top_k bound, the external vector search
returns the retrieved nodes (`VectorIndexRetriever(index, top_k).retrieve`). -/
structure Index where
  retrieve : String → Nat → List NodeWithScore

/-- Whether the configured `SimilarityPostprocessor` keeps a node: a node
is dropped when its score is absent or strictly below the cutoff
(modelling the external llama_index postprocessor configured with
`similarity_cutoff=0.7` in `setup_query_engine`). -/
def keepsNode (cutoff : ℚ) (n : NodeWithScore) : Bool :=
  match n.score with
  | none => false
  | some s => decide (cutoff ≤ s)

/-- The node_postprocessors stage of the query engine: filter the
retrieved nodes through the similarity cutoff. -/
def similarityPostprocess (cutoff : ℚ) (nodes : List NodeWithScore) : List NodeWithScore :=
  nodes.filter (keepsNode cutoff)

/-- The `RetrieverQueryEngine` built in `RAGEngine.setup_query_engine`:
a retriever over the index with the configured top-k, the response
synthesizer (external generation capability), and the similarity cutoff
of its postprocessor. -/
structure QueryEngine where
  retrieve : String → List NodeWithScore
  synthesize : String → List NodeWithScore → String
  cutoff : ℚ

/-- The node set actually handed to the response synthesizer by the
query engine: retrieved nodes after the cutoff postprocessor. -/
def QueryEngine.generationNodes (qe : QueryEngine) (question : String) : List NodeWithScore :=
  similarityPostprocess qe.cutoff (qe.retrieve question)

/-- One query through the RetrieverQueryEngine: retrieve, postprocess,
synthesize. -/
def QueryEngine.runQuery (qe : QueryEngine) (question : String) : String :=
  qe.synthesize question (qe.generationNodes question)

/-- RAGEngine.setup_query_engine on a present index (the source raises
ValueError when `self.index` is None before reaching this construction):
retriever with config.RAG_CONFIG similarity_top_k, the synthesizer, and
a SimilarityPostprocessor with cutoff 0.7. -/
def setup_query_engine (idx : Index) (synth : String → List NodeWithScore → String) :
    QueryEngine :=
  { retrieve := fun q => idx.retrieve q similarity_top_k,
    synthesize := synth,
    cutoff := 7 / 10 }

/-- The state of a RAGEngine relevant to querying: `self.index` and
`self.query_engine`, both None after `__init__` until documents are
ingested. -/
structure RAGEngine where
  index : Option Index
  queryEngine : Option QueryEngine

/-- The fixed reply of RAGEngine.query when no query engine exists. -/
def notInitializedMsg : String := "RAG system not initialized. Please add documents first."

/-- RAGEngine.query: with no query engine, the not-initialized message;
otherwise run the query engine (its try/except wraps any error into an
error string, so the caller always receives a string, never an
exception). -/
def RAGEngine.query (e : RAGEngine) (question : String) : String :=
  match e.queryEngine with
  | none => notInitializedMsg
  | some qe => qe.runQuery question

/-- Python len on a string: number of code points. -/
def pyLen (s : String) : Nat := s.data.length

/-- Python `s[:n]`: the first n code points. -/
def pySlice (s : String) (n : Nat) : String := String.mk (s.data.take n)

/-- One element of the list built by RAGEngine.get_relevant_documents:
content (possibly truncated for display), score (None becomes the raw
None value, since NodeWithScore always has the attribute), metadata. -/
structure RetrievedDoc where
  content : String
  score : Option ℚ
  metadata : ChunkMeta
deriving DecidableEq

/-- The per-node dictionary built in the loop of get_relevant_documents:
`node.text[:500] + "..." if len(node.text) > 500 else node.text`. -/
def nodeToRelevantDoc (n : NodeWithScore) : RetrievedDoc :=
  { content := if 500 < pyLen n.text then pySlice n.text 500 ++ "..." else n.text,
    score := n.score,
    metadata := n.metadata }

/-- RAGEngine.get_relevant_documents: with no index, the empty list
(normal, not an error); otherwise a fresh retriever with the given top_k
and the display mapping, with no similarity cutoff applied. -/
def get_relevant_documents (e : RAGEngine) (question : String) (top_k : Nat) :
    List RetrievedDoc :=
  match e.index with
  | none => []
  | some idx => (idx.retrieve question top_k).map nodeToRelevantDoc

/-! ## utils.py: prompt construction -/

/-- The instruction sentence inside the prompt header of
utils.create_chat_prompt. -/
def insufficiency_instruction : String :=
  "If the context doesn\x27t contain enough information to answer the question, please say so."

/-- utils.create_chat_prompt. The source builds the with-context prompt
from one f-string literal; it is written here split at the boundaries of
the instruction sentence, the context and the question, concatenation
restoring the literal verbatim. An empty context string is falsy in
Python, selecting the context-free prompt. -/
def create_chat_prompt (question : String) (context : String) : String :=
  if context = "" then "Question: " ++ question ++ "\n\nAnswer:"
  else
    "Based on the following context, please answer the question. " ++
    insufficiency_instruction ++ "\n\nContext:\n" ++ context ++
    "\n\nQuestion: " ++ question ++ "\n\nAnswer:"

/-! ## utils.py: chat history persistence -/

/-- A JSON value, the currency of the external json codec
(json.dump writes a value, json.load parses it back). -/
inductive Json where
  | null
  | bool (b : Bool)
  | num (q : ℚ)
  | str (s : String)
  | arr (xs : List Json)
  | obj (fields : List (String × Json))

/-- What a file on disk holds, as far as json.load is concerned: valid
JSON text for some value, or bytes that fail to parse. -/
inductive FileData where
  | json (j : Json)
  | invalid

/-- The filesystem as the chat-history functions touch it: an
association of file paths to contents, later writes shadowing earlier
ones. -/
def FS : Type := List (String × FileData)

/-- Look a path up in the filesystem; none models a missing file
(open raises FileNotFoundError). -/
def fsLookup : FS → String → Option FileData
  | [], _ => none
  | (p, d) :: rest, q => if p = q then some d else fsLookup rest q

/-- The generated chat-history filename of save_chat_history, from the
datetime.now() timestamp string. -/
def chatHistoryFilename (timestampStr : String) : String :=
  "chat_history_" ++ timestampStr ++ ".json"

/-- os.path.join for a directory without trailing separator and a
relative name. -/
def path_join (dir fname : String) : String := dir ++ "/" ++ fname

/-- utils.save_chat_history on the success path of the file write:
when no filename is given (None, or empty, both falsy), generate the
timestamp-stamped one; write the JSON array of the entries under
LOGS_DIR and return the new filesystem with the written path. -/
def save_chat_history (fs : FS) (chat_history : List Json) (timestampStr : String)
    (filename : Option String) : FS × Option String :=
  let fname :=
    match filename with
    | none => chatHistoryFilename timestampStr
    | some s => if s = "" then chatHistoryFilename timestampStr else s
  let filepath := path_join LOGS_DIR fname
  ((filepath, .json (.arr chat_history)) :: fs, some filepath)

/-- utils.load_chat_history: parse the file at the path; a missing file
or a parse failure is caught and yields the empty list. -/
def load_chat_history (fs : FS) (filepath : String) : Json :=
  match fsLookup fs filepath with
  | some (.json j) => j
  | some .invalid => .arr []
  | none => .arr []

/-- Whether a JSON object carries a field of the given name. -/
def hasField (j : Json) (key : String) : Bool :=
  match j with
  | .obj fields => fields.any (fun p => p.1 == key)
  | _ => false

/-- The chat-history entry appended by RAGCLIApp.query_single
(cli.py): question, response, sources - no timestamp field. -/
def cliChatEntry (question response : String) (sources : List Json) : Json :=
  .obj [("question", .str question), ("response", .str response),
        ("sources", .arr sources)]

/-- The chat-history entry appended by chat_with_rag (app.py):
timestamp, question, response, sources. -/
def appChatEntry (timestamp question response : String) (sources : List Json) : Json :=
  .obj [("timestamp", .str timestamp), ("question", .str question),
        ("response", .str response), ("sources", .arr sources)]

/-! ## Substring occurrence machinery (for prompt-ordering statements) -/

/-- Whether pattern p occurs contiguously somewhere in l. -/
def containsSub (l p : List Char) : Bool :=
  match l with
  | [] => p.isEmpty
  | _ :: t => p.isPrefixOf l || containsSub t p

/-! ## Concrete fixtures used by witnesses and counterexamples -/

/-- A splitter producing two chunks from any text. -/
def sampleSplit : String → List String := fun t => [t, t ++ "."]

/-- A small supported text file. -/
def txtFile : FileInfo := ⟨"/data/a.txt", "a.txt", ".txt", 10, "hello world"⟩

/-- Metadata of a sample ingested chunk. -/
def sampleMeta : ChunkMeta := ⟨"/data/a.txt", "a.txt", ".txt", get_file_size_mb txtFile, 0, 2⟩

/-- The second chunk document process_file produces for txtFile under
sampleSplit. -/
def sampleChunk1 : Doc := chunkDoc txtFile 2 (1, "hello world.")

/-- A supported file whose extraction yields empty text. -/
def emptyTxtFile : FileInfo := ⟨"/data/empty.txt", "empty.txt", ".txt", 4096, ""⟩

/-- A 60 MB PDF, above the 50 MB cap. -/
def bigPdfFile : FileInfo := ⟨"/data/big.pdf", "big.pdf", ".pdf", 62914560, "pdf text"⟩

/-- A PDF of exactly 50 MB, right at the cap. -/
def capPdfFile : FileInfo := ⟨"/data/cap.pdf", "cap.pdf", ".pdf", 52428800, "pdf text"⟩

/-- A retrieved node scoring above the cutoff. -/
def highNode : NodeWithScore := ⟨"relevant chunk", some (9 / 10), sampleMeta⟩

/-- A retrieved node scoring below the cutoff. -/
def lowNode : NodeWithScore := ⟨"weak chunk", some (1 / 10), sampleMeta⟩

/-- An index whose vector search returns one high-scoring and one
low-scoring node. -/
def sampleIndex : Index := ⟨fun _ _ => [highNode, lowNode]⟩

/-- A generation capability returning a fixed answer. -/
def sampleSynth : String → List NodeWithScore → String := fun _ _ => "an answer"

/-- An engine with an index but statements only use its index. -/
def sampleEngine : RAGEngine := ⟨some sampleIndex, none⟩

/-- The engine state right after construction: nothing ingested. -/
def emptyEngine : RAGEngine := ⟨none, none⟩

/-- A chunk text of 501 characters, one past the display bound. -/
def longText : String := String.mk (List.replicate 501 'a')

/-- An index retrieving a single node with the 501-character text. -/
def longEngine : RAGEngine := ⟨some ⟨fun _ _ => [⟨longText, some 1, sampleMeta⟩]⟩, none⟩

/-! ## Helper lemmas -/

theorem containsSub_cons (c : Char) (t p : List Char) :
    containsSub (c :: t) p = (p.isPrefixOf (c :: t) || containsSub t p) := rfl

theorem isPrefixOf_append_self (p b : List Char) : p.isPrefixOf (p ++ b) = true := by
  rw [List.isPrefixOf_iff_prefix]
  exact List.prefix_append p b

theorem containsSub_of_append (a p b : List Char) :
    containsSub (a ++ (p ++ b)) p = true := by
  induction a with
  | nil =>
    simp only [List.nil_append]
    cases p with
    | nil => cases b <;> simp [containsSub, List.isPrefixOf]
    | cons c t =>
      show containsSub ((c :: t) ++ b) (c :: t) = true
      rw [List.cons_append, containsSub_cons, ← List.cons_append]
      rw [isPrefixOf_append_self]
      rfl
  | cons c a ih =>
    show containsSub (c :: (a ++ (p ++ b))) p = true
    rw [containsSub_cons]
    rw [ih]
    exact Bool.or_true _

theorem containsSub_take (a p r : List Char) (n : Nat)
    (h : a.length + p.length ≤ n) :
    containsSub ((a ++ (p ++ r)).take n) p = true := by
  have h1 : (a ++ p).length ≤ n := by simp [List.length_append]; omega
  rw [← List.append_assoc]
  rw [List.take_append_eq_append_take]
  rw [List.take_of_length_le h1]
  rw [List.append_assoc]
  exact containsSub_of_append a p _

/-! ## Claims -/

/-- Claim C1: with no index and no query engine (nothing ever ingested),
RAGEngine.query returns the fixed not-initialized message and
get_relevant_documents returns the empty list; both are total functions
of the state, so no exception reaches the caller. -/
theorem query_not_ready (e : RAGEngine) (question : String) (top_k : Nat)
    (h1 : e.queryEngine = none) (h2 : e.index = none) :
    e.query question = notInitializedMsg ∧
    get_relevant_documents e question top_k = [] := by
  constructor
  · unfold RAGEngine.query
    rw [h1]
  · unfold get_relevant_documents
    rw [h2]

/-- Witness for C1 at the freshly constructed engine. -/
theorem query_not_ready_witness :
    RAGEngine.query emptyEngine "What is machine learning?" = notInitializedMsg ∧
    get_relevant_documents emptyEngine "What is machine learning?" 5 = [] :=
  query_not_ready emptyEngine "What is machine learning?" 5 rfl rfl

/-- Claim C2: every node reaching the response synthesizer through the
query engine built by setup_query_engine carries a score of at least the
0.7 cutoff, while get_relevant_documents (the display path) keeps every
retrieved node, applying no cutoff. -/
theorem cutoff_enforcement (idx : Index) (synth : String → List NodeWithScore → String)
    (question : String) (e : RAGEngine) (idx2 : Index) (top_k : Nat)
    (h : e.index = some idx2) :
    (∀ n ∈ (setup_query_engine idx synth).generationNodes question,
      ∃ s, n.score = some s ∧ 7 / 10 ≤ s) ∧
    (get_relevant_documents e question top_k).length =
      (idx2.retrieve question top_k).length := by
  constructor
  · intro n hn
    simp only [QueryEngine.generationNodes, similarityPostprocess] at hn
    have hk := List.of_mem_filter hn
    cases hs : n.score with
    | none => simp [keepsNode, hs] at hk
    | some s =>
      refine ⟨s, rfl, ?_⟩
      simpa [keepsNode, hs, setup_query_engine] using hk
  · simp [get_relevant_documents, h]

/-- Witness for C2: a retrieval with one node above and one below the
cutoff. -/
theorem cutoff_enforcement_witness :
    (∀ n ∈ (setup_query_engine sampleIndex sampleSynth).generationNodes "q",
      ∃ s, n.score = some s ∧ 7 / 10 ≤ s) ∧
    (get_relevant_documents sampleEngine "q" 5).length =
      (sampleIndex.retrieve "q" 5).length :=
  cutoff_enforcement sampleIndex sampleSynth "q" sampleEngine sampleIndex 5 rfl

/-- Claim C3: whenever process_file yields chunks, the chunk at list
position i carries chunk_id i (contiguous 0-based numbering in order)
and its total_chunks equals the number of chunks produced. -/
theorem chunk_indexing_invariant (split : String → List String) (f : FileInfo)
    (i : Nat) (d : Doc)
    (h : ((process_file split f).2)[i]? = some d) :
    d.meta.chunk_id = i ∧
    d.meta.total_chunks = ((process_file split f).2).length := by
  have hcases : (process_file split f).2 = [] ∨
      ∃ nodes : List String,
        (process_file split f).2 = nodes.enum.map (chunkDoc f nodes.length) := by
    by_cases h1 : is_supported_file f
    · by_cases h2 : get_file_size_mb f > MAX_FILE_SIZE_MB
      · left
        simp [process_file, h1, h2]
      · by_cases h3 : f.extractedText = ""
        · left
          simp [process_file, h1, h2, h3]
        · right
          refine ⟨split f.extractedText, ?_⟩
          simp [process_file, h1, h2, h3]
    · have h1' : is_supported_file f = false := by simpa using h1
      left
      simp [process_file, h1']
  rcases hcases with hnil | ⟨nodes, heq⟩
  · rw [hnil] at h
    simp at h
  · rw [heq] at h ⊢
    obtain ⟨hi, hEl⟩ := List.getElem?_eq_some_iff.mp h
    have hil : i < nodes.length := by simpa [List.enum_length] using hi
    have hget : (nodes.enum.map (chunkDoc f nodes.length))[i] =
        chunkDoc f nodes.length (i, nodes[i]) := by
      simp [List.getElem_enum]
    rw [hget] at hEl
    rw [← hEl]
    constructor
    · rfl
    · simp [chunkDoc, List.enum_length]

/-- Witness for C3: the second chunk of a two-chunk split carries
chunk_id 1 and total_chunks 2. -/
theorem chunk_indexing_invariant_witness :
    sampleChunk1.meta.chunk_id = 1 ∧
    sampleChunk1.meta.total_chunks = ((process_file sampleSplit txtFile).2).length :=
  chunk_indexing_invariant sampleSplit txtFile 1 sampleChunk1 (by
    have h1 : is_supported_file txtFile = true := by decide
    have hb : ¬ get_file_size_mb txtFile > MAX_FILE_SIZE_MB := by
      norm_num [get_file_size_mb, txtFile, MAX_FILE_SIZE_MB]
    have h3 : ¬ txtFile.extractedText = "" := by decide
    have key : (process_file sampleSplit txtFile).2 =
        (sampleSplit txtFile.extractedText).enum.map
          (chunkDoc txtFile (sampleSplit txtFile.extractedText).length) := by
      simp [process_file, h1, hb, h3]
    rw [key]
    rfl)

/-- Claim C4: a supported, size-admissible file whose extracted text is
empty produces exactly zero chunks, with the no-content outcome that the
source reports through logger.warning, never logger.error, and in
particular no empty-text chunk is created. -/
theorem empty_text_yields_no_chunks (split : String → List String) (f : FileInfo)
    (h1 : is_supported_file f = true)
    (h2 : ¬ get_file_size_mb f > MAX_FILE_SIZE_MB)
    (h3 : f.extractedText = "") :
    process_file split f = (ProcessOutcome.noContent, []) ∧
    outcomeLogLevel (process_file split f).1 = LogLevel.warning ∧
    outcomeLogLevel (process_file split f).1 ≠ LogLevel.error := by
  have hmain : process_file split f = (ProcessOutcome.noContent, []) := by
    simp [process_file, h1, h2, h3]
  refine ⟨hmain, ?_, ?_⟩
  · rw [hmain]
    rfl
  · rw [hmain]
    simp [outcomeLogLevel]

/-- Witness for C4 at a supported empty-extraction file. -/
theorem empty_text_yields_no_chunks_witness :
    process_file sampleSplit emptyTxtFile = (ProcessOutcome.noContent, []) ∧
    outcomeLogLevel (process_file sampleSplit emptyTxtFile).1 = LogLevel.warning ∧
    outcomeLogLevel (process_file sampleSplit emptyTxtFile).1 ≠ LogLevel.error :=
  empty_text_yields_no_chunks sampleSplit emptyTxtFile (by decide)
    (by norm_num [get_file_size_mb, emptyTxtFile, MAX_FILE_SIZE_MB]) rfl

/-- Claim C5: a file with an unsupported extension or a size strictly
above the cap yields zero chunks, its outcome is one of the two
rejection branches (reported per file at warning level), and removing it
from a directory batch leaves the batch result unchanged - the remaining
files are still processed. -/
theorem unsupported_or_oversize_rejected (split : String → List String) (f : FileInfo)
    (pre post : List FileInfo)
    (h : is_supported_file f = false ∨ MAX_FILE_SIZE_MB < get_file_size_mb f) :
    (process_file split f).2 = [] ∧
    ((process_file split f).1 = ProcessOutcome.unsupported ∨
      (process_file split f).1 = ProcessOutcome.tooLarge) ∧
    outcomeLogLevel (process_file split f).1 = LogLevel.warning ∧
    process_directory split (pre ++ f :: post) = process_directory split (pre ++ post) := by
  have hpf : process_file split f = (ProcessOutcome.unsupported, []) ∨
      process_file split f = (ProcessOutcome.tooLarge, []) := by
    by_cases hs : is_supported_file f
    · have hsize : MAX_FILE_SIZE_MB < get_file_size_mb f := by
        rcases h with h | h
        · rw [hs] at h
          cases h
        · exact h
      right
      simp [process_file, hs, hsize]
    · have hs' : is_supported_file f = false := by simpa using hs
      left
      simp [process_file, hs']
  have hnil : (process_file split f).2 = [] := by
    rcases hpf with h' | h' <;> rw [h']
  have hdir : ∀ pr : List FileInfo,
      process_directory split (pr ++ f :: post) = process_directory split (pr ++ post) := by
    intro pr
    induction pr with
    | nil => simp [process_directory, hnil]
    | cons g t ih => simp [process_directory, ih]
  refine ⟨hnil, ?_, ?_, hdir pre⟩
  · rcases hpf with h' | h'
    · exact Or.inl (by rw [h'])
    · exact Or.inr (by rw [h'])
  · rcases hpf with h' | h' <;> rw [h'] <;> rfl

/-- Witness for C5: the 60 MB PDF of the spec scenario, in a batch with
one good file. -/
theorem unsupported_or_oversize_rejected_witness :
    (process_file sampleSplit bigPdfFile).2 = [] ∧
    ((process_file sampleSplit bigPdfFile).1 = ProcessOutcome.unsupported ∨
      (process_file sampleSplit bigPdfFile).1 = ProcessOutcome.tooLarge) ∧
    outcomeLogLevel (process_file sampleSplit bigPdfFile).1 = LogLevel.warning ∧
    process_directory sampleSplit ([] ++ bigPdfFile :: [txtFile]) =
      process_directory sampleSplit ([] ++ [txtFile]) :=
  unsupported_or_oversize_rejected sampleSplit bigPdfFile [] [txtFile]
    (Or.inr (by norm_num [get_file_size_mb, bigPdfFile, MAX_FILE_SIZE_MB]))

/-- Counterexample to claim C6 as stated: the claim asks for the prompt
to contain the context, followed by the literal question, followed by
the insufficiency instruction. At question "zzz" and context "ccc" no
such decomposition of the produced prompt exists: the instruction
sentence occurs only in the header, before the context and the
question, so nothing after the question can be the instruction. -/
theorem prompt_order_counterexample :
    ¬ ∃ (pre m1 m2 post : List Char),
      (create_chat_prompt "zzz" "ccc").data =
        pre ++ ("ccc".data ++ (m1 ++ ("zzz".data ++
          (m2 ++ (insufficiency_instruction.data ++ post))))) := by
  rintro ⟨pre, m1, m2, post, hEq⟩
  have hEq' : (create_chat_prompt "zzz" "ccc").data =
      (pre ++ ("ccc".data ++ m1)) ++ ("zzz".data ++
        (m2 ++ (insufficiency_instruction.data ++ post))) := by
    simpa [List.append_assoc] using hEq
  have hlen := congrArg List.length hEq'
  have e1 : ("ccc".data).length = 3 := rfl
  have e2 : ("zzz".data).length = 3 := rfl
  have e3 : (insufficiency_instruction.data).length = 88 := rfl
  have e4 : ((create_chat_prompt "zzz" "ccc").data).length = 186 := rfl
  simp only [List.length_append, e1, e2, e3, e4] at hlen
  have hbound : (pre ++ ("ccc".data ++ m1)).length + ("zzz".data).length ≤ 98 := by
    simp only [List.length_append, e1, e2]
    omega
  have htrue : containsSub ((create_chat_prompt "zzz" "ccc").data.take 98) "zzz".data
      = true := by
    rw [hEq']
    exact containsSub_take _ _ _ 98 hbound
  have hfalse : containsSub ((create_chat_prompt "zzz" "ccc").data.take 98) "zzz".data
      = false := by decide
  exact Bool.noConfusion (htrue ▸ hfalse)

/-- Claim C6 amended: for a nonempty context the prompt consists of the
insufficiency instruction (inside the fixed header) first, then the
embedded context, then the literal question, then the answer cue - the
instruction precedes the context and question rather than following
them. -/
theorem prompt_structure (question context : String) (h : context ≠ "") :
    ∃ (m1 m2 m3 : List Char),
      (create_chat_prompt question context).data =
        "Based on the following context, please answer the question. ".data ++
          (insufficiency_instruction.data ++ (m1 ++ (context.data ++
            (m2 ++ (question.data ++ m3))))) := by
  refine ⟨"\n\nContext:\n".data, "\n\nQuestion: ".data, "\n\nAnswer:".data, ?_⟩
  rw [create_chat_prompt, if_neg h]
  simp [String.data_append, List.append_assoc]

/-- Witness for C6 amended at concrete question and context. -/
theorem prompt_structure_witness :
    ∃ (m1 m2 m3 : List Char),
      (create_chat_prompt "zzz" "ccc").data =
        "Based on the following context, please answer the question. ".data ++
          (insufficiency_instruction.data ++ (m1 ++ ("ccc".data ++
            (m2 ++ ("zzz".data ++ m3))))) :=
  prompt_structure "zzz" "ccc" (by decide)

set_option maxRecDepth 8192 in
/-- Counterexample to claim C7 as stated: on a 501-character chunk the
display content produced by get_relevant_documents is the first 500
characters with "..." appended, which is not equal to the first 500
characters, so the displayed text does not equal the first-500-character
slice the claim asks for. -/
theorem display_truncation_counterexample :
    (get_relevant_documents longEngine "q" 5).map (fun d => d.content) =
      [pySlice longText 500 ++ "..."] ∧
    pySlice longText 500 ++ "..." ≠ pySlice longText 500 := by
  constructor
  · rfl
  · decide

/-- Claim C7 amended: every entry of get_relevant_documents displays the
full chunk text when it has at most 500 characters, and otherwise the
first 500 characters with an explicit "..." ellipsis appended (a bounded
preview; the untruncated text is never used as the display content in
that case). -/
theorem display_truncation (e : RAGEngine) (idx : Index) (question : String)
    (top_k : Nat) (h : e.index = some idx) (d : RetrievedDoc)
    (hd : d ∈ get_relevant_documents e question top_k) :
    ∃ n ∈ idx.retrieve question top_k,
      (pyLen n.text ≤ 500 → d.content = n.text) ∧
      (500 < pyLen n.text → d.content = pySlice n.text 500 ++ "...") := by
  unfold get_relevant_documents at hd
  rw [h] at hd
  obtain ⟨n, hn, hdn⟩ := List.mem_map.mp hd
  refine ⟨n, hn, ?_, ?_⟩
  · intro hle
    rw [← hdn]
    simp [nodeToRelevantDoc, Nat.not_lt.mpr hle]
  · intro hgt
    rw [← hdn]
    simp [nodeToRelevantDoc, hgt]

/-- Witness for C7 amended on a short chunk of the sample index. -/
theorem display_truncation_witness :
    ∃ n ∈ sampleIndex.retrieve "q" 5,
      (pyLen n.text ≤ 500 → (nodeToRelevantDoc highNode).content = n.text) ∧
      (500 < pyLen n.text →
        (nodeToRelevantDoc highNode).content = pySlice n.text 500 ++ "...") :=
  display_truncation sampleEngine sampleIndex "q" 5 rfl (nodeToRelevantDoc highNode)
    (List.Mem.head _)

/-- Counterexample to claim C8 as stated: saving the two entries built
by the CLI path does produce a file parsing as a JSON array of length 2,
but its elements carry no timestamp field (only question, response and
sources), so "each element containing timestamp" fails; the web-app
entry shape, by contrast, does carry one. -/
theorem chat_history_fields_counterexample :
    load_chat_history
        (save_chat_history [] [cliChatEntry "q1" "r1" [], cliChatEntry "q2" "r2" []]
          "20260101_000000" none).1
        "./logs/chat_history_20260101_000000.json" =
      Json.arr [cliChatEntry "q1" "r1" [], cliChatEntry "q2" "r2" []] ∧
    hasField (cliChatEntry "q1" "r1" []) "timestamp" = false ∧
    hasField (appChatEntry "2026-01-01T00:00:00" "q1" "r1" []) "timestamp" = true := by
  refine ⟨?_, rfl, rfl⟩
  rfl

/-- Claim C8 amended: saving a chat history of N entries writes, under
the logs directory and a per-save timestamp-stamped filename, a file
parsing as a JSON array holding exactly those N entries; entries
recorded by the web app carry timestamp, question, response and sources,
while entries recorded by the CLI carry only question, response and
sources. -/
theorem chat_history_save_format (fs : FS) (entries : List Json) (ts : String) :
    (save_chat_history fs entries ts none).2 =
      some (path_join LOGS_DIR (chatHistoryFilename ts)) ∧
    fsLookup (save_chat_history fs entries ts none).1
        (path_join LOGS_DIR (chatHistoryFilename ts)) =
      some (FileData.json (Json.arr entries)) ∧
    (∀ t q r s, hasField (appChatEntry t q r s) "timestamp" = true ∧
      hasField (appChatEntry t q r s) "question" = true ∧
      hasField (appChatEntry t q r s) "response" = true ∧
      hasField (appChatEntry t q r s) "sources" = true) ∧
    (∀ q r s, hasField (cliChatEntry q r s) "question" = true ∧
      hasField (cliChatEntry q r s) "response" = true ∧
      hasField (cliChatEntry q r s) "sources" = true ∧
      hasField (cliChatEntry q r s) "timestamp" = false) := by
  refine ⟨rfl, ?_, ?_, ?_⟩
  · simp [save_chat_history, fsLookup]
  · intro t q r s
    exact ⟨rfl, rfl, rfl, rfl⟩
  · intro q r s
    exact ⟨rfl, rfl, rfl, rfl⟩

/-- Claim C10: loading the file just saved returns exactly the saved
array of entries, and loading a missing or unparsable file returns the
empty list instead of raising. -/
theorem chat_history_round_trip (fs : FS) (entries : List Json) (ts : String)
    (filename : Option String) (fs2 : FS) (p2 : String)
    (hmiss : fsLookup fs2 p2 = none ∨ fsLookup fs2 p2 = some FileData.invalid) :
    (∀ p, (save_chat_history fs entries ts filename).2 = some p →
      load_chat_history (save_chat_history fs entries ts filename).1 p =
        Json.arr entries) ∧
    load_chat_history fs2 p2 = Json.arr [] := by
  constructor
  · intro p hp
    rcases filename with _ | s
    · have hp' : path_join LOGS_DIR (chatHistoryFilename ts) = p := by
        simpa [save_chat_history] using hp
      rw [← hp']
      simp [save_chat_history, load_chat_history, fsLookup]
    · by_cases hs : s = ""
      · subst hs
        have hp' : path_join LOGS_DIR (chatHistoryFilename ts) = p := by
          simpa [save_chat_history] using hp
        rw [← hp']
        simp [save_chat_history, load_chat_history, fsLookup]
      · have hp' : path_join LOGS_DIR s = p := by
          simpa [save_chat_history, hs] using hp
        rw [← hp']
        simp [save_chat_history, load_chat_history, fsLookup, hs]
  · rcases hmiss with h | h <;> simp [load_chat_history, h]

/-- Witness for C10: a one-entry save/load round trip, and a load from a
file holding unparsable bytes. -/
theorem chat_history_round_trip_witness :
    (∀ p, (save_chat_history [] [Json.str "e"] "20260101_000000" none).2 = some p →
      load_chat_history (save_chat_history [] [Json.str "e"] "20260101_000000" none).1 p =
        Json.arr [Json.str "e"]) ∧
    load_chat_history [("x", FileData.invalid)] "x" = Json.arr [] :=
  chat_history_round_trip [] [Json.str "e"] "20260101_000000" none
    [("x", FileData.invalid)] "x" (Or.inr rfl)

/-- Claim C9: both size checks reject only files strictly above the cap:
a file of at most (in particular exactly) 50 MB is never size-rejected
by process_file, validate_file_upload records no size error for it, and
when its extension is also supported the upload validates. -/
theorem size_cap_boundary (split : String → List String) (f : FileInfo)
    (h : get_file_size_mb f ≤ MAX_FILE_SIZE_MB) :
    (process_file split f).1 ≠ ProcessOutcome.tooLarge ∧
    (∀ q, UploadError.fileTooLarge q ∉ (validate_file_upload f).errors) ∧
    (is_supported_file f = true → (validate_file_upload f).valid = true) := by
  have hnot : ¬ get_file_size_mb f > MAX_FILE_SIZE_MB := not_lt.mpr h
  have hnot' : ¬ (f.sizeBytes : ℚ) / (1024 * 1024) > MAX_FILE_SIZE_MB := hnot
  refine ⟨?_, ?_, ?_⟩
  · by_cases hs : is_supported_file f
    · by_cases h3 : f.extractedText = ""
      · simp [process_file, hs, hnot, h3]
      · simp [process_file, hs, hnot, h3]
    · have hs' : is_supported_file f = false := by simpa using hs
      simp [process_file, hs']
  · intro q hq
    by_cases hc : SUPPORTED_EXTENSIONS.contains (pyLower f.suffix) = true
    · simp [validate_file_upload, hnot', hc] at hq
    · simp [validate_file_upload, hnot', hc] at hq
  · intro hs
    have hc : SUPPORTED_EXTENSIONS.contains (pyLower f.suffix) = true := hs
    have hc' : pyLower f.suffix ∈ SUPPORTED_EXTENSIONS := by simpa using hc
    simp [validate_file_upload, hnot', hc']

/-- Witness for C9 at a PDF of exactly 50 MB (52428800 bytes). -/
theorem size_cap_boundary_witness :
    (process_file sampleSplit capPdfFile).1 ≠ ProcessOutcome.tooLarge ∧
    (∀ q, UploadError.fileTooLarge q ∉ (validate_file_upload capPdfFile).errors) ∧
    (is_supported_file capPdfFile = true →
      (validate_file_upload capPdfFile).valid = true) :=
  size_cap_boundary sampleSplit capPdfFile
    (by norm_num [get_file_size_mb, capPdfFile, MAX_FILE_SIZE_MB])
